import Mathlib

/-!
Verification development for the TEG_Dashboard repository
(src/app.py and src/pages/sales_dashboard.py).

The two Python scripts are Streamlit dashboards over the Monday.com
GraphQL API.  The logic relevant here is:

* `get_sales_data` (sales_dashboard.py): a cursor-based pagination loop
  accumulating items, with error handling for timeouts, network errors,
  application-level error payloads, and missing board data;
* `process_sales_data` (sales_dashboard.py): field extraction from the
  column-value lists, currency/numeric coercion, the Contract-Amount /
  Numbers3 fallback for `Total Value`, the `Lead Status == "Closed"`
  filter with the amount sub-filter, and the two distinct year filters
  (raw-string substring "2025" vs parsed-year equality);
* `format_data` / `main` (app.py): date coercion with the "%B %Y" month
  label, the displayed-table column selection and the CSV export.

Pandas/requests library behaviour is embedded only as far as the scripts
exercise it; each such model carries a comment naming the library call.
-/

namespace TEG

/-! ### Fetcher model: `get_sales_data` in src/pages/sales_dashboard.py -/

/-- One `items_page` object of a successful board response:
`items` (modelled by their ids) and the continuation `cursor`
(`items_page.get("cursor")`, absent → `none`). -/
structure ItemsPage where
  items : List Nat
  cursor : Option String
deriving DecidableEq, Repr

/-- The possible outcomes of one `requests.post` round trip inside the
pagination loop, as the code distinguishes them:
`timeout` (`requests.exceptions.Timeout`), `reqErr`
(`requests.exceptions.RequestException`), `unexpectedErr` (bare
`Exception`), or a parsed JSON body.  In the body, `errors` models a
truthy `data["errors"]` payload and `boards` is `none` when
`data["data"]["boards"]` is missing or empty, otherwise the first
board's items page (`items_page` missing is modelled as
`⟨[], none⟩`, matching `board_info.get("items_page", {})`). -/
inductive PageResp where
  | timeout
  | reqErr (msg : String)
  | unexpectedErr (msg : String)
  | ok (errors : Option String) (boards : Option ItemsPage)
deriving DecidableEq, Repr

/-- Python truthiness of the cursor: `while ...: if not cursor ... break`.
`None` and the empty string are both falsy. -/
def cursorFalsy : Option String → Bool
  | none => true
  | some s => s.isEmpty

/-- The `while True` pagination loop of `get_sales_data`, run against a
script of successive server responses (the loop passes the returned
cursor into the next call; the model indexes the successive responses
positionally).  `acc` is `all_items`, `calls` is `page_count`.  The
outer `none` means the response script was exhausted while the loop
still wanted another page (the loop would keep running); `some (r, n)`
means the Python function returned after `n` calls, where `r = none`
models `return None` (the three `except` branches) and `r = some items`
models returning the assembled data dict with `all_items = items`
(reached both at normal termination and at the two `break`s on an
error payload / missing board data). -/
def fetchGo (limit : Nat) : List PageResp → List Nat → Nat → Option (Option (List Nat) × Nat)
  | [], _, _ => none
  | PageResp.timeout :: _, _, calls => some (none, calls + 1)
  | PageResp.reqErr _ :: _, _, calls => some (none, calls + 1)
  | PageResp.unexpectedErr _ :: _, _, calls => some (none, calls + 1)
  | PageResp.ok errors boards :: rest, acc, calls =>
      if errors.isSome then
        -- `if "errors" in data and data["errors"]: st.error(...); break`
        some (some acc, calls + 1)
      else
        match boards with
        | none =>
            -- `else: st.error("No board data found"); break`
            some (some acc, calls + 1)
        | some ip =>
            let acc2 := acc ++ ip.items
            -- `if not cursor or len(items) < limit: break`
            if cursorFalsy ip.cursor || decide (ip.items.length < limit) then
              some (some acc2, calls + 1)
            else
              fetchGo limit rest acc2 (calls + 1)

/-- `get_sales_data` starts with `all_items = []`, `page_count = 0` and
`limit = 500`. -/
def getSalesDataModel (script : List PageResp) : Option (Option (List Nat) × Nat) :=
  fetchGo 500 script [] 0

/-! ### Normalizer model: `process_sales_data` field extraction -/

/-- One entry of an item's `column_values` list: the column `id` and its
display `text` (which the API may return as `null`, modelled by
`none`). -/
structure ColVal where
  id : String
  text : Option String
deriving DecidableEq, Repr

/-- The fixed record dict built per item in `process_sales_data`. -/
structure SalesRecord where
  item : String
  closeDate : String
  leadStatus : String
  amountPaidOrContractValue : String
  contractAmount : String
  numbers3 : String
  assignedPerson : String
  clientType : String
deriving DecidableEq, Repr

/-- The eight formula-column identifiers that the extraction chain maps
to the "Amount Paid or Contract Value" field. -/
def formulaIds : List String :=
  ["formula_mktj2qh2", "formula_mktk2rgx", "formula_mktks5te", "formula_mktknqy9",
   "formula_mktkwnyh", "formula_mktq5ahq", "formula_mktt5nty", "formula_mkv0r139"]

/-- One step of the `for col_val in item.get("column_values", [])` loop:
the `if / elif` chain on `col_id`, each branch storing
`text if text else ""`. -/
def applyColVal (r : SalesRecord) (c : ColVal) : SalesRecord :=
  let text := c.text.getD ""
  if c.id = "color_mknxd1j2" then { r with leadStatus := text }
  else if c.id = "contract_amt" then { r with contractAmount := text }
  else if c.id = "numbers3" then { r with numbers3 := text }
  else if c.id = "color_mkvewcwe" then { r with assignedPerson := text }
  else if c.id = "status_14__1" then { r with clientType := text }
  else if c.id = "date_mktq7npm" then { r with closeDate := text }
  else if c.id = "formula_mktj2qh2" then { r with amountPaidOrContractValue := text }
  else if c.id = "formula_mktk2rgx" then { r with amountPaidOrContractValue := text }
  else if c.id = "formula_mktks5te" then { r with amountPaidOrContractValue := text }
  else if c.id = "formula_mktknqy9" then { r with amountPaidOrContractValue := text }
  else if c.id = "formula_mktkwnyh" then { r with amountPaidOrContractValue := text }
  else if c.id = "formula_mktq5ahq" then { r with amountPaidOrContractValue := text }
  else if c.id = "formula_mktt5nty" then { r with amountPaidOrContractValue := text }
  else if c.id = "formula_mkv0r139" then { r with amountPaidOrContractValue := text }
  else r

/-- The record dict as initialised before the column loop: the item name
and empty-string defaults for every tracked field. -/
def initRecord (name : String) : SalesRecord :=
  ⟨name, "", "", "", "", "", "", ""⟩

/-- Field extraction for one item: initialise the record, then fold the
column-value loop over it. -/
def extractRecord (name : String) (cols : List ColVal) : SalesRecord :=
  cols.foldl applyColVal (initRecord name)

/-! ### Numeric coercion: `pd.to_numeric(..., errors="coerce")` on the
currency columns -/

/-- `digitsToNat ds` is the number denoted by a digit list. -/
def digitsToNat (l : List Char) : Nat :=
  l.foldl (fun acc c => acc * 10 + (c.toNat - 48)) 0

/-- All characters are decimal digits. -/
def allDigits (l : List Char) : Bool :=
  l.all Char.isDigit

/-- Splitting a character list on a separator character, like
`str.split(sep)`: `n` separators yield `n + 1` (possibly empty)
groups. -/
def charSplit (sep : Char) : List Char → List (List Char)
  | [] => [[]]
  | c :: cs =>
      if c == sep then [] :: charSplit sep cs
      else
        match charSplit sep cs with
        | [] => [[c]]
        | g :: gs => (c :: g) :: gs

/-- The number denoted by a nonempty all-digit character list; anything
else is rejected. -/
def charsToNat? (l : List Char) : Option Nat :=
  if l ≠ [] ∧ allDigits l then some (digitsToNat l) else none

/-- Value of the fractional digit string after the decimal point. -/
def fracDigitsToRat (l : List Char) : ℚ :=
  l.foldr (fun c acc => (((c.toNat - 48 : Nat) : ℚ) + acc) / 10) 0

/-- Model of `pd.to_numeric(s, errors="coerce")` on a plain decimal
string: optional sign, digits with at most one decimal point, at least
one digit; anything else (in particular the empty string) coerces to
null (`none`, pandas `NaN`). -/
def parseDecimal (s : String) : Option ℚ :=
  let cs := s.toList
  let sgn : ℚ := match cs with
    | '-' :: _ => -1
    | _ => 1
  let body : List Char := match cs with
    | '-' :: rest => rest
    | '+' :: rest => rest
    | _ => cs
  match charSplit '.' body with
  | [ip] =>
      if ip ≠ [] ∧ allDigits ip then
        some (sgn * digitsToNat ip)
      else none
  | [ip, fp] =>
      if (ip ≠ [] ∨ fp ≠ []) ∧ allDigits ip ∧ allDigits fp then
        some (sgn * ((digitsToNat ip : ℚ) + fracDigitsToRat fp))
      else none
  | _ => none

/-- `df["Contract Amount"].str.replace("$", "").str.replace(",", "")`:
every dollar sign and comma is removed. -/
def stripCurrency (s : String) : String :=
  String.mk (s.toList.filter (fun c => c ≠ '$' ∧ c ≠ ','))

/-- The Contract Amount coercion of line 248: strip currency symbols and
thousands separators, then `pd.to_numeric(..., errors="coerce")`. -/
def coerceContractAmount (s : String) : Option ℚ :=
  parseDecimal (stripCurrency s)

/-! ### Date coercion: `pd.to_datetime(..., errors="coerce")` and the
`%B %Y` month label -/

/-- A parsed calendar date. -/
structure SDate where
  year : Nat
  month : Nat
  day : Nat
deriving DecidableEq, Repr

/-- Days in a month, Gregorian rules. -/
def daysInMonth (y m : Nat) : Nat :=
  if m = 2 then (if (y % 4 = 0 ∧ y % 100 ≠ 0) ∨ y % 400 = 0 then 29 else 28)
  else if m = 4 ∨ m = 6 ∨ m = 9 ∨ m = 11 then 30
  else 31

/-- Model of `pd.to_datetime(s, errors="coerce")` restricted to the
ISO `YYYY-MM-DD` shape the board's date columns carry: a four-digit
year, a month and a day within range; any other text (empty, malformed,
out-of-range components) coerces to null (`none`, pandas `NaT`) rather
than raising. -/
def parseDate (s : String) : Option SDate :=
  match charSplit '-' s.toList with
  | [ys, ms, ds] =>
      match charsToNat? ys, charsToNat? ms, charsToNat? ds with
      | some y, some m, some d =>
          if ys.length = 4 ∧ 1 ≤ m ∧ m ≤ 12 ∧ 1 ≤ d ∧ d ≤ daysInMonth y m then
            some ⟨y, m, d⟩
          else none
      | _, _, _ => none
  | _ => none

/-- Full month name, as `strftime("%B")` renders it. -/
def monthName : Nat → String
  | 1 => "January"
  | 2 => "February"
  | 3 => "March"
  | 4 => "April"
  | 5 => "May"
  | 6 => "June"
  | 7 => "July"
  | 8 => "August"
  | 9 => "September"
  | 10 => "October"
  | 11 => "November"
  | 12 => "December"
  | _ => ""

/-- The `Month Year` column of app.py line 159:
`df["Attribution Date"].dt.strftime("%B %Y")`; a null date yields a
null label. -/
def monthYearLabel (d : Option SDate) : Option String :=
  d.map (fun d => monthName d.month ++ " " ++ toString d.year)

/-! ### Total Value resolution and the row filters of
`process_sales_data` -/

/-- Lines 257-259:
`df["Total Value"] = df["Contract Amount"].fillna(0)` followed by
`df.loc[df["Total Value"] == 0, "Total Value"] = df.loc[..., "Numbers3"]`.
A null Contract Amount becomes 0 by `fillna`, and every zero entry is
then overwritten with the (possibly null) Numbers3 value. -/
def totalValue (a b : Option ℚ) : Option ℚ :=
  let t := a.getD 0
  if t = 0 then b else some t

/-- A normalized row, restricted to the fields the filters consult:
the Lead Status text, the two coerced amount columns, and the raw
Close Date text. -/
structure SalesRow where
  leadStatus : String
  contractAmount : Option ℚ
  numbers3 : Option ℚ
  closeDate : String
deriving DecidableEq, Repr

/-- Line 263: `closed_status_mask = df["Lead Status"] == "Closed"`. -/
def closedStatusMask (r : SalesRow) : Bool :=
  r.leadStatus == "Closed"

/-- Line 266: `contract_amount_mask = df["Contract Amount"] >= 0`;
a pandas comparison against `NaN` is `False`. -/
def contractAmountMask (r : SalesRow) : Bool :=
  match r.contractAmount with
  | some x => decide (0 ≤ x)
  | none => false

/-- Line 267: `numbers3_mask = df["Numbers3"] >= 0`. -/
def numbers3Mask (r : SalesRow) : Bool :=
  match r.numbers3 with
  | some x => decide (0 ≤ x)
  | none => false

/-- Line 268:
`both_null_mask = df["Contract Amount"].isna() & df["Numbers3"].isna()`. -/
def bothNullMask (r : SalesRow) : Bool :=
  r.contractAmount.isNone && r.numbers3.isNone

/-- The amount sub-filter of line 271:
`contract_amount_mask | numbers3_mask | both_null_mask`. -/
def amountOkMask (r : SalesRow) : Bool :=
  contractAmountMask r || numbers3Mask r || bothNullMask r

/-- Line 271:
`final_mask = closed_status_mask & (contract_amount_mask | numbers3_mask | both_null_mask)`;
a row is in `df_filtered` iff this holds. -/
def finalMask (r : SalesRow) : Bool :=
  closedStatusMask r && amountOkMask r

/-! ### The two year filters over Close Date -/

/-- Prefix test on character lists. -/
def charPrefixOf : List Char → List Char → Bool
  | [], _ => true
  | _ :: _, [] => false
  | a :: as, b :: bs => a == b && charPrefixOf as bs

/-- Substring test on character lists: the pattern occurs at some
position. -/
def charInfixOf (pat : List Char) : List Char → Bool
  | [] => pat.isEmpty
  | c :: cs => charPrefixOf pat (c :: cs) || charInfixOf pat cs

/-- Substring containment on strings (the pattern `"2025"` has no regex
metacharacters, so `Series.str.contains` is plain containment). -/
def containsSub (pat s : String) : Bool :=
  charInfixOf pat.toList s.toList

/-- Line 276: `year_2025_mask = df["Close Date"].str.contains("2025", na=False)`
on the raw date strings. -/
def view2025Pred (s : String) : Bool :=
  containsSub "2025" s

/-- The per-chart year filter (lines 280-281 and e.g. 510):
`df_filtered["Year"] = pd.to_datetime(...).dt.year` then
`df_filtered["Year"] == selected_year`; a `NaN` year compares `False`. -/
def chartYearPred (y : Nat) (s : String) : Bool :=
  match parseDate s with
  | some d => d.year == y
  | none => false

/-- Line 277: `df_2025 = df_filtered[year_2025_mask]` — membership of a
row in the 2025 reporting view. -/
def df2025Member (r : SalesRow) : Bool :=
  finalMask r && view2025Pred r.closeDate

/-- Membership of a row in a per-chart year slice of `df_filtered`. -/
def chartMember (y : Nat) (r : SalesRow) : Bool :=
  finalMask r && chartYearPred y r.closeDate

/-! ### app.py: `format_data`, the displayed table and the CSV export -/

/-- A row of app.py's DataFrame after `format_data`: the coerced
Attribution Date, the derived Month Year label, and the coerced
Google Adspend. -/
structure AppRow where
  item : String
  attributionDate : Option SDate
  monthYear : Option String
  adspend : Option ℚ
deriving DecidableEq, Repr

/-- `format_data` per raw record: parse the date (line 156), derive the
label (line 159), coerce the adspend (line 162). -/
def formatAppRow (name dateText adspendText : String) : AppRow :=
  let d := parseDate dateText
  { item := name
    attributionDate := d
    monthYear := monthYearLabel d
    adspend := parseDecimal adspendText }

/-- `df_chart = df_filtered.dropna(subset=["Attribution Date", "Google Adspend"])`
(line 228): keep the rows where both are non-null. -/
def appDfChart (rows : List AppRow) : List AppRow :=
  rows.filter (fun r => r.attributionDate.isSome && r.adspend.isSome)

/-- The rows shown in the data table (line 271: `st.dataframe(df_chart[...])`). -/
def tableRows (rows : List AppRow) : List AppRow :=
  appDfChart rows

/-- The rows serialised by `df_chart.to_csv(index=False)` (line 278). -/
def csvRows (rows : List AppRow) : List AppRow :=
  appDfChart rows

/-- Column order of the record dicts built in `format_data` (lines
131-135). -/
def recordColumns : List String :=
  ["Item", "Attribution Date", "Google Adspend"]

/-- DataFrame columns after `format_data`: line 159 appends the
`Month Year` column (lines 156 and 162 modify existing columns in
place). -/
def formatDataColumns : List String :=
  recordColumns ++ ["Month Year"]

/-- Columns of `df_with_dates` after line 200 appends `Year`;
`df_filtered` and `df_chart` are row selections and keep these
columns. -/
def dfChartColumns : List String :=
  formatDataColumns ++ ["Year"]

/-- `df_chart.to_csv(index=False)` serialises every column of
`df_chart`, in DataFrame order. -/
def csvExportColumns : List String :=
  dfChartColumns

/-- Lines 267-269: the column selection of the displayed table
(`display_columns`), widened with `Year` when present. -/
def displayColumns : List String :=
  if "Year" ∈ dfChartColumns then ["Item", "Attribution Date", "Year", "Google Adspend"]
  else ["Item", "Attribution Date", "Google Adspend"]

/-! ### Helper lemmas for the field-extraction loop -/

set_option maxHeartbeats 1000000 in
/-- A column value whose id is one of the eight formula identifiers
stores its text (or the empty-string default) into the
"Amount Paid or Contract Value" field. -/
theorem applyColVal_formula (r : SalesRecord) (c : ColVal) (h : c.id ∈ formulaIds) :
    (applyColVal r c).amountPaidOrContractValue = c.text.getD "" := by
  obtain ⟨i, t⟩ := c
  simp only [formulaIds, List.mem_cons, List.not_mem_nil, or_false] at h
  rcases h with rfl | rfl | rfl | rfl | rfl | rfl | rfl | rfl <;> rfl

/-- A column value whose id is not a formula identifier leaves the
"Amount Paid or Contract Value" field unchanged. -/
theorem applyColVal_not_formula (r : SalesRecord) (c : ColVal) (h : c.id ∉ formulaIds) :
    (applyColVal r c).amountPaidOrContractValue = r.amountPaidOrContractValue := by
  simp only [formulaIds, List.mem_cons, List.not_mem_nil, or_false, not_or] at h
  obtain ⟨h1, h2, h3, h4, h5, h6, h7, h8⟩ := h
  simp only [applyColVal]
  split_ifs <;> rfl

/-- Folding the column loop over columns none of which is a formula
column preserves the "Amount Paid or Contract Value" field. -/
theorem foldl_preserves_amountPaid (l : List ColVal) :
    ∀ r : SalesRecord, (∀ d ∈ l, d.id ∉ formulaIds) →
      (l.foldl applyColVal r).amountPaidOrContractValue = r.amountPaidOrContractValue := by
  induction l with
  | nil => intro r _; rfl
  | cons d l ih =>
      intro r h
      rw [List.foldl_cons, ih _ (fun x hx => h x (List.mem_cons_of_mem _ hx)),
        applyColVal_not_formula _ _ (h d (List.mem_cons_self _ _))]

/-! ### Claims -/

/-- C1: for every normalized row, the resolved Total Value follows the
fallback policy of lines 257-259: a non-null, non-zero Contract Amount
wins; a null or zero Contract Amount falls back to Numbers3.  In
particular a row with Contract Amount 0 and Numbers3 500 resolves to
500, and a row with Contract Amount 120 and Numbers3 500 resolves to
120. -/
theorem c1_total_value_fallback :
    (∀ (b : Option ℚ) (x : ℚ), x ≠ 0 → totalValue (some x) b = some x) ∧
    (∀ b : Option ℚ, totalValue none b = b) ∧
    (∀ b : Option ℚ, totalValue (some 0) b = b) ∧
    totalValue (some 0) (some 500) = some 500 ∧
    totalValue (some 120) (some 500) = some 120 := by
  refine ⟨?_, ?_, ?_, by norm_num [totalValue], by norm_num [totalValue]⟩
  · intro b x hx
    simp [totalValue, hx]
  · intro b
    simp [totalValue]
  · intro b
    simp [totalValue]

/-- Witness for C1 at the concrete inputs of the claim. -/
theorem c1_total_value_fallback_witness :
    totalValue (some 120) (some 500) = some 120 :=
  c1_total_value_fallback.1 (some 500) 120 (by norm_num)

set_option maxRecDepth 20000 in
set_option maxHeartbeats 1000000 in
/-- C2 counterexample: a fetch whose second page request fails with an
application-level error payload inside a successful HTTP response does
NOT return "no data": the loop breaks and the function returns the 500
items accumulated from the first page — a partial item list. -/
theorem c2_partial_data_counterexample :
    getSalesDataModel
        [PageResp.ok none (some ⟨List.replicate 500 0, some "c1"⟩),
         PageResp.ok (some "API Error") none] =
      some (some (List.replicate 500 0), 2) ∧
    (List.replicate 500 0 : List Nat) ≠ [] := by
  constructor
  · rfl
  · simp

/-- C2 amended: a timeout, a network/protocol error, or an unexpected
exception on any page makes the fetcher return no data (`None`); but an
application-level error payload inside a successful HTTP response, or
missing board data, only breaks the pagination loop, and the fetcher
returns the items accumulated before the failure. -/
theorem c2_error_handling_amended :
    (∀ (limit : Nat) (rest : List PageResp) (acc : List Nat) (calls : Nat),
      fetchGo limit (PageResp.timeout :: rest) acc calls = some (none, calls + 1)) ∧
    (∀ (limit : Nat) (msg : String) (rest : List PageResp) (acc : List Nat) (calls : Nat),
      fetchGo limit (PageResp.reqErr msg :: rest) acc calls = some (none, calls + 1)) ∧
    (∀ (limit : Nat) (msg : String) (rest : List PageResp) (acc : List Nat) (calls : Nat),
      fetchGo limit (PageResp.unexpectedErr msg :: rest) acc calls = some (none, calls + 1)) ∧
    (∀ (limit : Nat) (e : String) (boards : Option ItemsPage) (rest : List PageResp)
        (acc : List Nat) (calls : Nat),
      fetchGo limit (PageResp.ok (some e) boards :: rest) acc calls = some (some acc, calls + 1)) ∧
    (∀ (limit : Nat) (rest : List PageResp) (acc : List Nat) (calls : Nat),
      fetchGo limit (PageResp.ok none none :: rest) acc calls = some (some acc, calls + 1)) :=
  ⟨fun _ _ _ _ => rfl, fun _ _ _ _ _ => rfl, fun _ _ _ _ _ => rfl,
   fun _ _ _ _ _ _ => rfl, fun _ _ _ _ => rfl⟩

set_option maxRecDepth 20000 in
set_option maxHeartbeats 1000000 in
/-- C3: under the page limit 500, a server answering pages of sizes
[500, 500, 214] makes the fetcher stop after exactly three calls with
1214 items, whatever responses would follow; and pages of sizes
[500, 500, 500] with no cursor on the third response also stop it after
exactly three calls. -/
theorem c3_pagination_termination :
    (∀ rest : List PageResp,
      getSalesDataModel
          ([PageResp.ok none (some ⟨List.replicate 500 0, some "c1"⟩),
            PageResp.ok none (some ⟨List.replicate 500 1, some "c2"⟩),
            PageResp.ok none (some ⟨List.replicate 214 2, some "c3"⟩)] ++ rest) =
        some (some (List.replicate 500 0 ++ List.replicate 500 1 ++ List.replicate 214 2), 3)) ∧
    (List.replicate 500 (0 : Nat) ++ List.replicate 500 1 ++ List.replicate 214 2).length = 1214 ∧
    (∀ rest : List PageResp,
      getSalesDataModel
          ([PageResp.ok none (some ⟨List.replicate 500 0, some "c1"⟩),
            PageResp.ok none (some ⟨List.replicate 500 1, some "c2"⟩),
            PageResp.ok none (some ⟨List.replicate 500 2, none⟩)] ++ rest) =
        some (some (List.replicate 500 0 ++ List.replicate 500 1 ++ List.replicate 500 2), 3)) := by
  refine ⟨fun rest => rfl, by simp, fun rest => rfl⟩

/-- C4: the status filter is a case-sensitive exact match — a row is in
the filtered set only if its Lead Status is exactly "Closed", and rows
with status "closed" or "Open" are excluded. -/
theorem c4_status_filter_case_sensitive :
    (∀ r : SalesRow, finalMask r = true → r.leadStatus = "Closed") ∧
    (∀ r : SalesRow, r.leadStatus = "closed" → finalMask r = false) ∧
    (∀ r : SalesRow, r.leadStatus = "Open" → finalMask r = false) := by
  have hc : ¬ (("closed" : String) = "Closed") := by decide
  have ho : ¬ (("Open" : String) = "Closed") := by decide
  refine ⟨?_, ?_, ?_⟩
  · intro r h
    simp only [finalMask, closedStatusMask, Bool.and_eq_true, beq_iff_eq] at h
    exact h.1
  · intro r h
    simp [finalMask, closedStatusMask, h, hc]
  · intro r h
    simp [finalMask, closedStatusMask, h, ho]

/-- Witness for C4: a row with status "closed" and one with status
"Open" both fail the final filter. -/
theorem c4_status_filter_witness :
    finalMask ⟨"closed", some 1, none, ""⟩ = false ∧
    finalMask ⟨"Open", some 1, none, ""⟩ = false :=
  ⟨c4_status_filter_case_sensitive.2.1 ⟨"closed", some 1, none, ""⟩ rfl,
   c4_status_filter_case_sensitive.2.2 ⟨"Open", some 1, none, ""⟩ rfl⟩

/-- C5 counterexample: the code has no "both absent is acceptable"
configuration toggle — a row whose two amount fields are both null
passes the amount sub-filter unconditionally, and with status "Closed"
it lands in the filtered set, not excluded. -/
theorem c5_both_null_counterexample :
    amountOkMask ⟨"Closed", none, none, ""⟩ = true ∧
    finalMask ⟨"Closed", none, none, ""⟩ = true := by
  decide

/-- C5 amended: a row in which both candidate amount fields are
null/non-numeric always passes the amount sub-filter — the both-null
disjunct is hardcoded into the filter mask, with no configuration
toggle. -/
theorem c5_both_null_always_pass :
    ∀ r : SalesRow, r.contractAmount = none → r.numbers3 = none →
      amountOkMask r = true := by
  intro r h1 h2
  simp [amountOkMask, bothNullMask, contractAmountMask, numbers3Mask, h1, h2]

/-- Witness for the amended C5 at a concrete both-null row. -/
theorem c5_both_null_witness :
    amountOkMask ⟨"Open", none, none, "2024-01-01"⟩ = true :=
  c5_both_null_always_pass ⟨"Open", none, none, "2024-01-01"⟩ rfl rfl

/-- C6: two distinct year predicates coexist over Close Date — the 2025
reporting view selects filtered rows by raw-string containment of
"2025", while the per-chart filters select by parsed-year equality; on
the string "2025-13-45" (contains "2025" but is not a valid date) the
first includes the row and the second excludes it for every selected
year. -/
theorem c6_two_year_predicates :
    (∀ r : SalesRow, df2025Member r = (finalMask r && view2025Pred r.closeDate)) ∧
    df2025Member ⟨"Closed", some 100, some 0, "2025-13-45"⟩ = true ∧
    (∀ y : Nat, chartMember y ⟨"Closed", some 100, some 0, "2025-13-45"⟩ = false) ∧
    view2025Pred "2025-13-45" = true ∧
    parseDate "2025-13-45" = none := by
  have h : parseDate "2025-13-45" = none := by decide
  refine ⟨fun r => rfl, by decide, ?_, by decide, h⟩
  intro y
  simp [chartMember, chartYearPred, h]

/-- C7 counterexample: the exported CSV's column list is not the
displayed table's column list — `to_csv` serialises every DataFrame
column (including "Month Year") in DataFrame order, while the table
displays the selection Item, Attribution Date, Year, Google Adspend. -/
theorem c7_csv_columns_counterexample :
    csvExportColumns ≠ displayColumns := by decide

/-- C7 amended: the CSV export contains exactly the displayed
(filtered) rows — both are built from `df_chart` — but its columns are
the full DataFrame column set Item, Attribution Date, Google Adspend,
Month Year, Year in that order, which differs from the displayed
table's column selection and ordering. -/
theorem c7_csv_export_amended :
    csvExportColumns = ["Item", "Attribution Date", "Google Adspend", "Month Year", "Year"] ∧
    displayColumns = ["Item", "Attribution Date", "Year", "Google Adspend"] ∧
    csvExportColumns ≠ displayColumns ∧
    (∀ rows : List AppRow, csvRows rows = tableRows rows) := by
  refine ⟨by decide, by decide, by decide, fun rows => rfl⟩

/-- C8: the Contract Amount currency coercion maps "$2,013,315.00" to
the numeric value 2013315 after stripping the dollar sign and the
thousands separators, and maps the empty text to null. -/
theorem c8_currency_coercion :
    coerceContractAmount "$2,013,315.00" = some 2013315 ∧
    coerceContractAmount "" = none := by
  constructor
  · have h : coerceContractAmount "$2,013,315.00" =
        some ((1 : ℚ) * ((digitsToNat ['2', '0', '1', '3', '3', '1', '5'] : ℚ) +
          fracDigitsToRat ['0', '0'])) := rfl
    have hd : digitsToNat ['2', '0', '1', '3', '3', '1', '5'] = 2013315 := by decide
    have h0 : ('0'.toNat - 48 : Nat) = 0 := rfl
    have hf : fracDigitsToRat ['0', '0'] = 0 := by
      simp [fracDigitsToRat, h0]
    rw [h, hd, hf]
    norm_num
  · rfl

/-- C9: date coercion is total — "2024-03-15" parses to the date
2024-03-15 with derived month label "March 2024", while empty or
malformed date text yields a null date and a null label rather than an
error. -/
theorem c9_date_coercion :
    parseDate "2024-03-15" = some ⟨2024, 3, 15⟩ ∧
    monthYearLabel (parseDate "2024-03-15") = some "March 2024" ∧
    parseDate "" = none ∧
    monthYearLabel (parseDate "") = none ∧
    parseDate "not a date 2025" = none ∧
    monthYearLabel (parseDate "not a date 2025") = none := by
  decide

/-- C10: during field extraction, when several columns of an item carry
formula identifiers mapped to "Amount Paid or Contract Value", the last
occurrence in list order determines the field alone — its text (or the
empty-string default when its text is empty/null) unconditionally
overwrites whatever earlier matching columns stored. -/
theorem c10_last_formula_column_wins :
    ∀ (name : String) (pre post : List ColVal) (c : ColVal),
      c.id ∈ formulaIds →
      (∀ d ∈ post, d.id ∉ formulaIds) →
      (extractRecord name (pre ++ c :: post)).amountPaidOrContractValue = c.text.getD "" := by
  intro name pre post c hc hpost
  unfold extractRecord
  rw [List.foldl_append, List.foldl_cons, foldl_preserves_amountPaid post _ hpost,
    applyColVal_formula _ c hc]

/-- Witness for C10: a later formula column with null text overwrites
the non-empty value "999" stored by an earlier formula column, leaving
the empty-string default. -/
theorem c10_last_formula_column_witness :
    (extractRecord "Acme"
        [⟨"formula_mktj2qh2", some "999"⟩, ⟨"formula_mkv0r139", none⟩]).amountPaidOrContractValue
      = "" := by
  have h := c10_last_formula_column_wins "Acme" [⟨"formula_mktj2qh2", some "999"⟩] []
    ⟨"formula_mkv0r139", none⟩ (by decide) (by simp)
  exact h

end TEG
